import Mathlib

/-!
Verification development for `Cronograma.py`: a pipeline that partitions an
input spreadsheet by a category column, downloads the images referenced by URL
cells, embeds them into per-category spreadsheets, and renders per-category
HTML reports.

Cell values are modelled by `Val` (Python's `None`, `str`, `int`), spreadsheet
sheets by `List (List Val)` (the row tuples produced by openpyxl, all of the
sheet's width), the network by an environment mapping a URL and an attempt
index to an abstract response, and Python dicts by insertion-ordered
association lists with in-place update on existing keys.
-/

/-- Spreadsheet cell value: Python `None`, `str` or `int`. -/
inductive Val where
  | vNone : Val
  | vStr : String → Val
  | vInt : Int → Val
deriving DecidableEq

/-- Python truthiness of a cell value (`None`, `""` and `0` are falsy). -/
def pyTruthy : Val → Bool
  | .vNone => false
  | .vStr s => !s.isEmpty
  | .vInt n => n != 0

/-- Python `str()` of a cell value. -/
def pyStr : Val → String
  | .vNone => "None"
  | .vStr s => s
  | .vInt n => toString n

/-- Python `str.startswith`: a character-level implementation (structural,
so that concrete instances evaluate in the kernel). -/
def pyStartsWith (s p : String) : Bool := s.data.take p.data.length == p.data

/-- Split of a character list at a one-character separator, with Python
`str.split(sep)` semantics (empty pieces kept, `[[]]` for the empty list). -/
def splitOnChar (sep : Char) : List Char → List (List Char)
  | [] => [[]]
  | c :: rest =>
    if c = sep then [] :: splitOnChar sep rest
    else
      match splitOnChar sep rest with
      | [] => [[c]]
      | h :: t => (c :: h) :: t

/-- Python `str.split(sep)` for a one-character separator. -/
def pySplit (s : String) (sep : Char) : List String :=
  (splitOnChar sep s.data).map String.mk

/-- Python `str.strip()`: drop leading and trailing whitespace. -/
def pyStrip (s : String) : String :=
  ⟨((s.data.dropWhile Char.isWhitespace).reverse.dropWhile Char.isWhitespace).reverse⟩

/-- Python `os.path.basename` (POSIX form: the part after the last slash). -/
def pyBasename (p : String) : String := (pySplit p '/').getLastD p

/-- Insertion-ordered association-list lookup (first match), modelling
Python dict lookup and the `in` membership test. -/
def assocLookup {α β : Type} [DecidableEq α] : List (α × β) → α → Option β
  | [], _ => none
  | p :: rest, k => if p.1 = k then some p.2 else assocLookup rest k

/-- The store key `f"{row}_{col}"` built by `download_images` and
`extract_report_data` (Cronograma.py lines 165 and 265). -/
def imgKey (row col : Nat) : String := Nat.repr row ++ "_" ++ Nat.repr col

/-- Standard base64 alphabet character. -/
def b64Char (n : Nat) : Char :=
  "ABCDEFGHIJKLMNOPQRSTUVWXYZabcdefghijklmnopqrstuvwxyz0123456789+/".toList.getD n 'A'

/-- Base64 of a byte sequence (`base64.b64encode`), with `=` padding. -/
def b64encode : List Nat → String
  | [] => ""
  | [a] => String.mk [b64Char (a / 4), b64Char (a % 4 * 16), '=', '=']
  | [a, b] => String.mk [b64Char (a / 4), b64Char (a % 4 * 16 + b / 16), b64Char (b % 16 * 4), '=']
  | a :: b :: c :: rest =>
    String.mk [b64Char (a / 4), b64Char (a % 4 * 16 + b / 16), b64Char (b % 16 * 4 + c / 64),
      b64Char (c % 64)] ++ b64encode rest

/-- Outcome of one `requests.get` attempt: a timeout
(`requests.exceptions.Timeout`), another network error
(`requests.exceptions.RequestException`), any other raised exception, or a
reply carrying the HTTP status, the `content-type` header, the body bytes,
and whether writing those bytes to the download file succeeds. -/
inductive Resp where
  | timeout : Resp
  | netError : Resp
  | unexpected : Resp
  | reply (status : Nat) (contentType : String) (content : List Nat) (writeOk : Bool) : Resp
deriving DecidableEq

/-- `response.ok` of the `requests` library: status code below 400. -/
def respOk (status : Nat) : Bool := status < 400

/-- `max_retries = 3` (Cronograma.py line 85). -/
def max_retries : Nat := 3

/-- `base_timeout = 10` seconds (line 86). -/
def base_timeout : Rat := 10

/-- `timeout_multiplier = 1.5` (line 87); exactly 3/2. -/
def timeout_multiplier : Rat := 3 / 2

/-- `current_timeout = base_timeout * (timeout_multiplier ** attempt)` (line 91). -/
def currentTimeout (attempt : Nat) : Rat := base_timeout * timeout_multiplier ^ attempt

/-- `DOWNLOAD_DIR = 'downloads'` (line 38). -/
def DOWNLOAD_DIR : String := "downloads"

/-- Extension derived from the content type:
`content_type.split('/')[-1].split(';')[0]`, defaulting to `jpg` when empty
(lines 105-107). -/
def extOf (contentType : String) : String :=
  let e := (pySplit ((pySplit contentType '/').getLastD "") ';').headD ""
  if e = "" then "jpg" else e

/-- Observable result of `download_image`: the returned `(success, base64)`
pair, the number of loop iterations run, the timeout passed to each
`requests.get` call in order, and the download file written on success. -/
structure DLRes where
  success : Bool
  payload : Option String
  attempts : Nat
  timeouts : List Rat
  written : Option String
deriving DecidableEq

/-- The retry loop of `download_image` (lines 89-133) from iteration
`attempt` on, with `fuel` iterations left (`attempt + fuel = max_retries`
at every reachable call).  Each branch mirrors the Python control flow: a
non-ok status or a network-layer error retries unless this is the final
attempt; a non-image content type returns immediately; a file-write failure
raises and is caught by the final `except Exception` handler, returning
`(False, None)`. -/
def dlLoop (net : String → Nat → Resp) (url : String) (row col : Nat) : Nat → Nat → DLRes
  | _, 0 => ⟨false, none, 0, [], none⟩
  | attempt, fuel + 1 =>
    let t := currentTimeout attempt
    match net url attempt with
    | .reply status contentType content writeOk =>
      if !respOk status then
        if attempt = max_retries - 1 then ⟨false, none, 1, [t], none⟩
        else
          let r := dlLoop net url row col (attempt + 1) fuel
          ⟨r.success, r.payload, r.attempts + 1, t :: r.timeouts, r.written⟩
      else if !(pyStartsWith contentType "image/") then ⟨false, none, 1, [t], none⟩
      else if writeOk then
        ⟨true, some (b64encode content), 1, [t],
          some (DOWNLOAD_DIR ++ "/" ++ imgKey row col ++ "." ++ extOf contentType)⟩
      else ⟨false, none, 1, [t], none⟩
    | .timeout =>
      if attempt = max_retries - 1 then ⟨false, none, 1, [t], none⟩
      else
        let r := dlLoop net url row col (attempt + 1) fuel
        ⟨r.success, r.payload, r.attempts + 1, t :: r.timeouts, r.written⟩
    | .netError =>
      if attempt = max_retries - 1 then ⟨false, none, 1, [t], none⟩
      else
        let r := dlLoop net url row col (attempt + 1) fuel
        ⟨r.success, r.payload, r.attempts + 1, t :: r.timeouts, r.written⟩
    | .unexpected => ⟨false, none, 1, [t], none⟩

/-- `download_image(url, row, col)` (lines 83-133). -/
def download_image (net : String → Nat → Resp) (url : String) (row col : Nat) : DLRes :=
  dlLoop net url row col 0 max_retries

/-- The download-task discovery of `download_images` (lines 137-142):
for each data row (rows after the header, numbered from 2) and each
`col in range(24, 30)`, the 0-based element `row[col]` yields a task
`(value, row_index, col)` when it is a string starting with `http`. -/
def collectTasks (sheet : List (List Val)) : List (String × Nat × Nat) :=
  ((sheet.drop 1).enum).flatMap (fun p =>
    (List.range' 24 6).filterMap (fun col =>
      match p.2.getD col Val.vNone with
      | .vStr s => if !s.isEmpty && pyStartsWith s "http" then some (s, p.1 + 2, col) else none
      | _ => none))

/-- Python dict assignment `store[k] = v`: update in place when the key
exists, otherwise append. -/
def dictInsert (store : List (String × String)) (k v : String) : List (String × String) :=
  if store.any (fun p => decide (p.1 = k)) then
    store.map (fun p => if p.1 = k then (p.1, v) else p)
  else store ++ [(k, v)]

/-- `download_images(sheet)` (lines 135-173): run every task and store the
base64 payload of each successful download under `f"{row}_{col}"`.  The
worker pool completes tasks in arbitrary order; since every task has a
distinct key the final dict content is order-independent, and the model uses
submission order. -/
def dlStep (net : String → Nat → Resp) (store : List (String × String))
    (task : String × Nat × Nat) : List (String × String) :=
  let res := download_image net task.1 task.2.1 task.2.2
  if res.success then dictInsert store (imgKey task.2.1 task.2.2) (res.payload.getD "")
  else store

/-- The resulting store: every task is run and folded through `dlStep`. -/
def download_images (sheet : List (List Val)) (net : String → Nat → Resp) :
    List (String × String) :=
  (collectTasks sheet).foldl (dlStep net) []

/-- The loop of `filter_cobertura` (lines 205-219) over the remaining rows,
carrying the header seen so far and the dict of per-category sheets.  The
`not header` test is Python falsiness: true while no header is set (and for
an empty header tuple).  A data row is kept only when its element 1 (the
second column) is truthy; the first row for a new category creates a sheet
seeded with the header. -/
def fcGo : List (List Val) → Option (List Val) → List (Val × List (List Val)) →
    List (Val × List (List Val))
  | [], _, sheets => sheets
  | row :: rest, header, sheets =>
    if (match header with | none => true | some h => h.isEmpty) then
      fcGo rest (some row) sheets
    else
      let key := row.getD 1 Val.vNone
      if pyTruthy key then
        if sheets.any (fun p => decide (p.1 = key)) then
          fcGo rest header (sheets.map (fun p => if p.1 = key then (p.1, p.2 ++ [row]) else p))
        else fcGo rest header (sheets ++ [(key, [header.getD [], row])])
      else fcGo rest header sheets

/-- `filter_cobertura(sheet)` (lines 205-219): partition the rows by the
value of their second column. -/
def filter_cobertura (sheet : List (List Val)) : List (Val × List (List Val)) :=
  fcGo sheet none []

/-- `COLUMN_MAP` (lines 28-35). -/
def COLUMN_MAP : List (String × String) :=
  [("24", "Y"), ("25", "Z"), ("26", "AA"), ("27", "AB"), ("28", "AC"), ("29", "AD")]

/-- Result of the insertion loop of `add_images`: the `(path, anchor cell)`
placements performed and the paths whose processing raised a logged error. -/
structure EmbedResult where
  placements : List (String × String)
  errors : List String
deriving DecidableEq

/-- The per-file loop of `add_images` (lines 186-195).  For each file,
`filename_parts = basename.split('.')[0].split('_')`; only when it has
exactly two parts is anything done: building the `ExcelImage` (which may
raise, modelled by `imgOk`) and anchoring it at `COLUMN_MAP[col]` + row
(a missing key raises `KeyError`).  Exceptions are caught per file and
logged; a part count other than two skips the file silently. -/
def add_images_files (files : List String) (imgOk : String → Bool) : EmbedResult :=
  files.foldl (fun acc path =>
    let filename_parts := pySplit ((pySplit (pyBasename path) '.').headD "") '_'
    if filename_parts.length = 2 then
      let row := filename_parts.headD ""
      let col := filename_parts.getD 1 ""
      if imgOk path then
        match assocLookup COLUMN_MAP col with
        | some letter => ⟨acc.placements ++ [(path, letter ++ row)], acc.errors⟩
        | none => ⟨acc.placements, acc.errors ++ [path]⟩
      else ⟨acc.placements, acc.errors ++ [path]⟩
    else acc) ⟨[], []⟩

/-- Column letter of a 1-indexed column position, as produced by openpyxl's
`cell.column_letter` (bijective base 26: 1 ↦ A, 26 ↦ Z, 27 ↦ AA). -/
def colLetter : Nat → String
  | 0 => ""
  | n + 1 => colLetter (n / 26) ++ String.singleton (Char.ofNat (65 + n % 26))

/-- The field names excluded from every entry (line 260). -/
def excluded_headers : List Val :=
  [Val.vStr "Conca-1", Val.vStr "Total Horas", Val.vStr "Recorridospedestres",
    Val.vStr "Recuento de Combinada"]

/-- One item of an entry's image list (lines 267-271). -/
structure ImageItem where
  title : Val
  data : String
  position : String
deriving DecidableEq

/-- One entry of a report section: the field dict and the image list. -/
structure ReportEntry where
  data : List (Val × Val)
  images : List ImageItem
deriving DecidableEq

/-- One sheet's worth of entries, titled by the sheet name. -/
structure ReportSection where
  title : String
  entries : List ReportEntry
deriving DecidableEq

/-- The assembled report: output file basename plus sections. -/
structure Report where
  filename : String
  sections : List ReportSection
deriving DecidableEq

/-- Python dict assignment `entry[header] = value` over `Val` keys. -/
def entryInsert (entry : List (Val × Val)) (k v : Val) : List (Val × Val) :=
  if entry.any (fun p => decide (p.1 = k)) then
    entry.map (fun p => if p.1 = k then (p.1, v) else p)
  else entry ++ [(k, v)]

/-- The cell step of `extract_report_data`'s row loop (lines 253-273):
skip cells beyond the header width and denylisted fields; a cell in
1-indexed columns 24-29 holding an `http` string consults the store at
`f"{cell.row}_{cell.column}"` and, when present, appends an image item;
every other cell is written into the entry dict. -/
def processCell (store : List (String × String)) (headers : List Val) (rowIdx : Nat)
    (acc : List (Val × Val) × List ImageItem) (jc : Nat × Val) :
    List (Val × Val) × List ImageItem :=
  let j := jc.1
  let value := jc.2
  if headers.length ≤ j then acc
  else
    let header := headers.getD j Val.vNone
    if header ∈ excluded_headers then acc
    else if (decide (24 ≤ j + 1 ∧ j + 1 < 30) && pyTruthy value &&
        (match value with | Val.vStr s => pyStartsWith s "http" | _ => false)) then
      match assocLookup store (imgKey rowIdx (j + 1)) with
      | some b64 => (acc.1, acc.2 ++ [⟨header, b64, "Columna " ++ colLetter (j + 1)⟩])
      | none => acc
    else (entryInsert acc.1 header value, acc.2)

/-- The entry built from one data row (`cell.row = rowIdx`, cells enumerated
by 0-based position `idx`, `cell.column = idx + 1`). -/
def processRow (store : List (String × String)) (headers : List Val) (rowIdx : Nat)
    (row : List Val) : List (Val × Val) × List ImageItem :=
  row.enum.foldl (processCell store headers rowIdx) ([], [])

/-- One section of `extract_report_data` (lines 241-281): header row defines
the field names, data rows start at row 2, and an entry with an empty field
dict is dropped. -/
def extract_sheet (store : List (String × String)) (name : String)
    (rows : List (List Val)) : ReportSection :=
  let headers := if rows.length > 0 then rows.headD [] else []
  ⟨name, (rows.drop 1).enum.foldl (fun es p =>
    let pr := processRow store headers (p.1 + 2) p.2
    if pr.1 ≠ [] then es ++ [⟨pr.1, pr.2⟩] else es) []⟩

/-- `extract_report_data(excel_file, images_base64)` (lines 232-286), on the
workbook contents read back from `excel_file` (a list of sheets in
`wb.sheetnames` order, each a name with its rows of cell values). -/
def extract_report_data (wb : List (String × List (List Val)))
    (images_base64 : List (String × String)) (excel_file : String) : Report :=
  ⟨pyBasename excel_file, wb.map (fun s => extract_sheet images_base64 s.1 s.2)⟩

/-- The fixed HTML document head built by `generate_html_report`
(lines 293-655): the f-string up to `</header>`, parameterised by the
category name and the formatted generation timestamp
`datetime.now().strftime(...)`. -/
def htmlHead (cobertura now : String) : String :=
  "\n<!DOCTYPE html>\n<html lang=\"es\">\n<head>\n    <meta charset=\"UTF-8\">\n    <meta name=\"viewport\" content=\"width=device-width, initial-scale=1.0\">\n    <title>Informe de Hallazgos - " ++
    cobertura ++
    "</title>\n    <link href=\"https://fonts.googleapis.com/css2?family=Roboto:wght@300;400;500;700&display=swap\" rel=\"stylesheet\">\n    <style>\n        :root \x7b\n            --color-background: #E0F0FF;\n            --color-title: #003B5C;\n            --color-subtitle: #0077B3;\n            --color-card: #A4C8E1;\n            --color-card-secondary: #dedede;\n            --color-button: #005A8D;\n            --shadow-sm: 0 2px 4px rgba(0,0,0,0.1);\n            --shadow-md: 0 4px 6px rgba(0,0,0,0.1);\n            --shadow-lg: 0 10px 15px rgba(0,0,0,0.1);\n            --border-radius: 8px;\n            --spacing-xs: 0.25rem;\n            --spacing-sm: 0.5rem;\n            --spacing-md: 0.75rem;\n            --spacing-lg: 2.5rem;\n            --spacing-xl: 1.5rem;\n        \x7d\n        \n        * \x7b\n            margin: 0;\n            padding: 0;\n            box-sizing: border-box;\n        \x7d\n        \n        body \x7b\n            font-family: \x27Roboto\x27, sans-serif;\n            line-height: 1.4;\n            color: var(--color-title);\n            background-color: var(--color-background);\n            padding: var(--spacing-sm);\n        \x7d\n        \n        .report-container \x7b\n            max-width: 1400px;\n            margin: 0 auto;\n            background: white;\n            border-radius: var(--border-radius);\n            box-shadow: var(--shadow-lg);\n            overflow: hidden;\n        \x7d\n        \n        header \x7b\n            background: var(--color-title);\n            color: white;\n            padding: var(--spacing-md);\n            text-align: center;\n            position: relative;\n            overflow: hidden;\n        \x7d\n        \n        header::before \x7b\n            content: \x27\x27;\n            position: absolute;\n            top: 0;\n            left: 0;\n            right: 0;\n            bottom: 0;\n            background: linear-gradient(45deg, var(--color-title), var(--color-subtitle));\n            opacity: 0.9;\n            z-index: 0;\n        \x7d\n        \n        header h1 \x7b\n            font-size: 1.8rem;\n            margin-bottom: var(--spacing-xs);\n            position: relative;\n            z-index: 1;\n        \x7d\n        \n        header p \x7b\n            color: rgba(255, 255, 255, 0.9);\n            font-size: 0.9rem;\n            position: relative;\n            z-index: 1;\n        \x7d\n        \n        .report-section \x7b\n            padding: var(--spacing-md);\n            border-bottom: 1px solid rgba(0, 0, 0, 0.1);\n        \x7d\n        \n        .report-section:last-child \x7b\n            border-bottom: none;\n        \x7d\n        \n        .report-section h3 \x7b\n            color: var(--color-subtitle);\n            font-size: 1.2rem;\n            margin-bottom: var(--spacing-md);\n            padding-bottom: var(--spacing-xs);\n            border-bottom: 2px solid var(--color-subtitle);\n        \x7d\n        \n        .entry \x7b\n            background: var(--color-card-secondary);\n            border-radius: var(--border-radius);\n            margin-bottom: var(--spacing-xl);\n            overflow: hidden;\n            box-shadow: var(--shadow-sm);\n            padding: var(--spacing-md);\n        \x7d\n        \n        .entry:last-child \x7b\n            margin-bottom: 0;\n        \x7d\n        \n        .entry-divider \x7b\n            height: 2px;\n            background: linear-gradient(to right, transparent, var(--color-subtitle), transparent);\n            margin: var(--spacing-lg) 0;\n            opacity: 0.5;\n        \x7d\n        \n        .data-flex \x7b\n            display: flex;\n            flex-wrap: wrap;\n            gap: var(--spacing-md);\n            margin-bottom: var(--spacing-md);\n        \x7d\n        \n        .data-item \x7b\n            flex: 1 1 300px;\n            min-width: 300px;\n            background: white;\n            padding: var(--spacing-sm);\n            border-radius: var(--border-radius);\n            transition: transform 0.2s ease;\n        \x7d\n        \n        .data-item:hover \x7b\n            transform: translateY(-2px);\n        \x7d\n        \n        .data-item-label \x7b\n            font-size: 0.75rem;\n            color: var(--color-subtitle);\n            margin-bottom: var(--spacing-xs);\n            font-weight: 500;\n            text-transform: uppercase;\n            letter-spacing: 0.5px;\n        \x7d\n        \n        .data-item-value \x7b\n            font-size: 0.85rem;\n            color: var(--color-title);\n            word-break: break-word;\n        \x7d\n        \n        .data-item-full \x7b\n            flex: 1 1 100%;\n            background: linear-gradient(to right, white, var(--color-background));\n        \x7d\n        \n        .image-gallery \x7b\n            display: flex;\n            flex-wrap: wrap;\n            gap: var(--spacing-md);\n            margin-top: var(--spacing-md);\n            padding: var(--spacing-sm);\n        \x7d\n        \n        .image-item \x7b\n            flex: 1 1 250px;\n            min-width: 250px;\n            background: white;\n            border-radius: var(--border-radius);\n            overflow: hidden;\n            box-shadow: var(--shadow-sm);\n            transition: transform 0.2s ease;\n        \x7d\n        \n        .image-item:hover \x7b\n            transform: translateY(-3px);\n            box-shadow: var(--shadow-md);\n        \x7d\n        \n        .image-container \x7b\n            height: 200px;\n            display: flex;\n            align-items: center;\n            justify-content: center;\n            background: var(--color-background);\n            cursor: pointer;\n            position: relative;\n            overflow: hidden;\n        \x7d\n        \n        .image-container::after \x7b\n            content: \x27🔍\x27;\n            position: absolute;\n            top: 50%;\n            left: 50%;\n            transform: translate(-50%, -50%);\n            font-size: 1.2rem;\n            opacity: 0;\n            transition: opacity 0.3s ease;\n            background: rgba(0, 0, 0, 0.5);\n            width: 100%;\n            height: 100%;\n            display: flex;\n            align-items: center;\n            justify-content: center;\n            color: white;\n        \x7d\n        \n        .image-container:hover::after \x7b\n            opacity: 1;\n        \x7d\n        \n        .image-container img \x7b\n            max-width: 100%;\n            max-height: 100%;\n            object-fit: contain;\n        \x7d\n        \n        .image-caption \x7b\n            padding: var(--spacing-sm);\n            background: white;\n            font-size: 0.8rem;\n            color: var(--color-subtitle);\n            text-align: center;\n        \x7d\n        \n        /* Modal styles */\n        .modal \x7b\n            display: none;\n            position: fixed;\n            z-index: 1000;\n            left: 0;\n            top: 0;\n            width: 100%;\n            height: 100%;\n            background: rgba(0, 0, 0, 0.9);\n            backdrop-filter: blur(5px);\n        \x7d\n        \n        .modal-content \x7b\n            display: block;\n            max-width: 90%;\n            max-height: 90%;\n            position: absolute;\n            top: 50%;\n            left: 50%;\n            transform: translate(-50%, -50%);\n            border-radius: var(--border-radius);\n            box-shadow: var(--shadow-lg);\n        \x7d\n        \n        .close \x7b\n            position: absolute;\n            top: 20px;\n            right: 30px;\n            color: white;\n            font-size: 40px;\n            font-weight: bold;\n            cursor: pointer;\n            transition: color 0.3s ease;\n        \x7d\n        \n        .close:hover \x7b\n            color: var(--color-button);\n        \x7d\n        \n        /* Responsive Design */\n        @media (max-width: 1200px) \x7b\n            .data-item \x7b\n                flex: 1 1 250px;\n                min-width: 250px;\n            \x7d\n        \x7d\n        \n        @media (max-width: 992px) \x7b\n            .data-item \x7b\n                flex: 1 1 200px;\n                min-width: 200px;\n            \x7d\n            \n            .image-item \x7b\n                flex: 1 1 200px;\n                min-width: 200px;\n            \x7d\n            \n            .image-container \x7b\n                height: 180px;\n            \x7d\n        \x7d\n        \n        @media (max-width: 768px) \x7b\n            body \x7b\n                padding: var(--spacing-xs);\n            \x7d\n            \n            .report-container \x7b\n                border-radius: 0;\n            \x7d\n            \n            header h1 \x7b\n                font-size: 1.5rem;\n            \x7d\n            \n            .report-section h3 \x7b\n                font-size: 1.1rem;\n            \x7d\n            \n            .entry \x7b\n                margin-bottom: var(--spacing-lg);\n                padding: var(--spacing-sm);\n            \x7d\n            \n            .data-item,\n            .image-item \x7b\n                flex: 1 1 30%;\n                min-width: 48%;\n            \x7d\n            \n            .image-container \x7b\n                height: 150px;\n            \x7d\n        \x7d\n        \n        @media (max-width: 480px) \x7b\n            header h1 \x7b\n                font-size: 1.3rem;\n            \x7d\n            \n            header p \x7b\n                font-size: 0.8rem;\n            \x7d\n            \n            .report-section h3 \x7b\n                font-size: 1rem;\n            \x7d\n            \n            .data-item-label \x7b\n                font-size: 0.7rem;\n            \x7d\n            \n            .data-item-value \x7b\n                font-size: 0.8rem;\n            \x7d\n            \n            .image-container \x7b\n                height: 200px;\n            \x7d\n        \x7d\n    </style>\n</head>\n<body>\n    <div class=\"report-container\">\n        <header>\n            <h1>Informe de Hallazgos</h1>\n            <p>" ++
    cobertura ++
    " - Generado el " ++
    now ++
    "</p>\n        </header>\n"

/-- The fixed HTML document tail appended after the sections
(lines 705-738): the modal viewer markup and script through `</html>`. -/
def htmlTail : String :=
  "\n        <!-- Modal para imágenes -->\n        <div id=\"imageModal\" class=\"modal\">\n            <span class=\"close\" onclick=\"closeModal()\">&times;</span>\n            <img class=\"modal-content\" id=\"modalImage\">\n        </div>\n        \n        <script>\n            function openModal(imgSrc) \x7b\n                document.getElementById(\x27modalImage\x27).src = imgSrc;\n                document.getElementById(\x27imageModal\x27).style.display = \x27block\x27;\n                document.body.style.overflow = \x27hidden\x27;\n            \x7d\n            \n            function closeModal() \x7b\n                document.getElementById(\x27imageModal\x27).style.display = \x27none\x27;\n                document.body.style.overflow = \x27auto\x27;\n            \x7d\n            \n            window.onclick = function(event) \x7b\n                if (event.target == document.getElementById(\x27imageModal\x27)) \x7b\n                    closeModal();\n                \x7d\n            \x7d\n            \n            document.addEventListener(\x27keydown\x27, function(event) \x7b\n                if (event.key === \x27Escape\x27) \x7b\n                    closeModal();\n                \x7d\n            \x7d);\n        </script>\n    </div>\n</body>\n</html>"

/-- The HTML of one field of an entry card (lines 670-677): rendered only
by the caller when the value is truthy and non-blank; the
`ObservacionesHallazgo` field gets the full-width style class. -/
def dataItemHtml (key value : Val) : String :=
  let css_class := if key = Val.vStr "ObservacionesHallazgo" then "data-item-full" else ""
  "\n                    <div class=\"data-item " ++ css_class ++
    "\">\n                        <div class=\"data-item-label\">" ++ pyStr key ++
    "</div>\n                        <div class=\"data-item-value\">" ++ pyStr value ++
    "</div>\n                    </div>"

/-- The HTML of one image of an entry gallery (lines 686-694). -/
def imageItemHtml (img : ImageItem) : String :=
  "\n                    <div class=\"image-item\">\n                        <div class=\"image-container\" onclick=\"openModal(\x27data:image/png;base64," ++
    img.data ++
    "\x27)\">\n                            <img src=\"data:image/png;base64," ++ img.data ++
    "\" alt=\"" ++ pyStr img.title ++
    "\">\n                        </div>\n                        <div class=\"image-caption\">\n                            " ++
    pyStr img.title ++ " (" ++ img.position ++
    ")\n                        </div>\n                    </div>"

/-- The HTML of one entry card (lines 662-701): the field items of the
truthy, non-blank fields, then the gallery when the image list is nonempty,
then the entry divider. -/
def entryHtml (e : ReportEntry) : String :=
  "\n            <div class=\"entry\">\n                <div class=\"data-flex\">" ++
    e.data.foldl (fun acc kv =>
      if pyTruthy kv.2 && !(pyStrip (pyStr kv.2)).isEmpty then acc ++ dataItemHtml kv.1 kv.2
      else acc) "" ++
    "\n                </div>" ++
    (if e.images ≠ [] then
      "\n                <div class=\"image-gallery\">" ++
        e.images.foldl (fun acc img => acc ++ imageItemHtml img) "" ++
        "\n                </div>"
    else "") ++
    "\n            </div>" ++
    "\n            <div class=\"entry-divider\"></div>"

/-- The HTML of one report section (lines 657-703). -/
def sectionHtml (s : ReportSection) : String :=
  "\n        <div class=\"report-section\">\n            <h3>" ++ s.title ++ "</h3>" ++
    s.entries.foldl (fun acc e => acc ++ entryHtml e) "" ++
    "\n        </div>"

/-- The full HTML document built by `generate_html_report` (lines 288-744)
for report `data` and category `cobertura`, where `now` is the formatted
value of `datetime.now()` read during the call. -/
def generate_html_report (data : Report) (cobertura : String) (now : String) : String :=
  data.sections.foldl (fun acc s => acc ++ sectionHtml s) (htmlHead cobertura now) ++ htmlTail

/-- Accumulator lemma for the core decimal printer: the accumulator is
appended to the right of the digits produced from the empty accumulator. -/
theorem toDigitsCore_append (b : Nat) : ∀ (fuel n : Nat) (ds : List Char),
    Nat.toDigitsCore b fuel n ds = Nat.toDigitsCore b fuel n [] ++ ds := by
  intro fuel
  induction fuel with
  | zero => intro n ds; simp [Nat.toDigitsCore]
  | succ f ih =>
    intro n ds
    simp only [Nat.toDigitsCore]
    by_cases h : n / b = 0
    · simp [h]
    · simp only [h, if_false]
      rw [ih (n / b) (Nat.digitChar (n % b) :: ds), ih (n / b) [Nat.digitChar (n % b)]]
      simp

/-- The core decimal printer does not depend on the fuel once the fuel
exceeds the number being printed. -/
theorem toDigitsCore_fuel (b : Nat) (hb : 2 ≤ b) : ∀ (n fuel fuel2 : Nat), n < fuel →
    n < fuel2 → Nat.toDigitsCore b fuel n [] = Nat.toDigitsCore b fuel2 n [] := by
  intro n
  induction n using Nat.strong_induction_on with
  | _ n ih =>
    intro fuel fuel2 hf hf2
    cases fuel with
    | zero => omega
    | succ f =>
      cases fuel2 with
      | zero => omega
      | succ f2 =>
        simp only [Nat.toDigitsCore]
        by_cases h : n / b = 0
        · simp [h]
        · simp only [h, if_false]
          rw [toDigitsCore_append b f, toDigitsCore_append b f2]
          have hn : 0 < n := by
            rcases Nat.eq_zero_or_pos n with h0 | h0
            · exact absurd (by simp [h0]) h
            · exact h0
          have hlt : n / b < n := Nat.div_lt_self hn (by omega)
          rw [ih (n / b) hlt f f2 (by omega) (by omega)]

/-- Reference recursion for the decimal digit characters of a natural
number: digits of `n / 10` followed by the character of `n % 10`. -/
def decDigits (n : Nat) : List Char :=
  if n < 10 then [Nat.digitChar n]
  else decDigits (n / 10) ++ [Nat.digitChar (n % 10)]
decreasing_by exact Nat.div_lt_self (by omega) (by omega)

/-- The core decimal printer agrees with the reference recursion. -/
theorem toDigits_eq_decDigits : ∀ n : Nat, Nat.toDigits 10 n = decDigits n := by
  intro n
  induction n using Nat.strong_induction_on with
  | _ n ih =>
    unfold Nat.toDigits
    simp only [Nat.toDigitsCore]
    by_cases h : n / 10 = 0
    · have hn : n < 10 := by
        by_contra hc
        have : 1 ≤ n / 10 := Nat.one_le_div_iff (by omega) |>.mpr (by omega)
        omega
      rw [decDigits]
      simp [h, hn, Nat.mod_eq_of_lt hn]
    · have hn : ¬n < 10 := by
        intro hc
        exact h (Nat.div_eq_of_lt hc)
      simp only [h, if_false]
      rw [toDigitsCore_append 10 n]
      have h0 : 0 < n := by omega
      have hlt : n / 10 < n := Nat.div_lt_self h0 (by omega)
      rw [toDigitsCore_fuel 10 (by omega) (n / 10) n (n / 10 + 1) (by omega) (by omega)]
      rw [decDigits]
      simp only [hn, if_false]
      have := ih (n / 10) hlt
      unfold Nat.toDigits at this
      rw [this]

/-- Unfolding equation of the reference recursion. -/
theorem decDigits_eq (n : Nat) : decDigits n =
    if n < 10 then [Nat.digitChar n]
    else decDigits (n / 10) ++ [Nat.digitChar (n % 10)] := by
  rw [decDigits]

/-- The decimal digit list of a natural number is never empty. -/
theorem decDigits_ne_nil (n : Nat) : decDigits n ≠ [] := by
  rw [decDigits]
  by_cases h : n < 10 <;> simp [h]

/-- Characters produced by `Nat.digitChar` on arguments below ten are
decimal digit characters. -/
theorem digitChar_isDigit : ∀ m, m < 10 → (Nat.digitChar m).isDigit = true := by decide

/-- `Nat.digitChar` is injective on arguments below ten. -/
theorem digitChar_inj : ∀ a, a < 10 → ∀ b, b < 10 → Nat.digitChar a = Nat.digitChar b →
    a = b := by decide

/-- Every character of the decimal digit list is a decimal digit. -/
theorem decDigits_digits (n : Nat) : ∀ c ∈ decDigits n, c.isDigit = true := by
  induction n using Nat.strong_induction_on with
  | _ n ih =>
    intro c hc
    rw [decDigits] at hc
    by_cases h : n < 10
    · simp [h] at hc
      exact hc ▸ digitChar_isDigit n h
    · simp [h] at hc
      rcases hc with hc | hc
      · exact ih (n / 10) (Nat.div_lt_self (by omega) (by omega)) c hc
      · exact hc ▸ digitChar_isDigit (n % 10) (Nat.mod_lt n (by omega))

/-- The decimal digit list determines the number. -/
theorem decDigits_inj : ∀ m n : Nat, decDigits m = decDigits n → m = n := by
  intro m
  induction m using Nat.strong_induction_on with
  | _ m ih =>
    intro n h
    rw [decDigits_eq m, decDigits_eq n] at h
    by_cases hm : m < 10 <;> by_cases hn : n < 10
    · simp only [hm, hn, if_true, List.cons.injEq] at h
      exact digitChar_inj m hm n hn h.1
    · rw [if_pos hm, if_neg hn] at h
      rcases hd : decDigits (n / 10) with _ | ⟨a, l⟩
      · exact absurd hd (decDigits_ne_nil _)
      · rw [hd] at h
        simp at h
    · rw [if_neg hm, if_pos hn] at h
      rcases hd : decDigits (m / 10) with _ | ⟨a, l⟩
      · exact absurd hd (decDigits_ne_nil _)
      · rw [hd] at h
        simp at h
    · simp only [hm, hn, if_false] at h
      have h2 := congrArg List.reverse h
      simp only [List.reverse_append, List.reverse_singleton, List.singleton_append,
        List.cons.injEq] at h2
      obtain ⟨h3, h4⟩ := h2
      have hmod : m % 10 = n % 10 :=
        digitChar_inj (m % 10) (Nat.mod_lt m (by omega)) (n % 10) (Nat.mod_lt n (by omega)) h3
      have hdiv : m / 10 = n / 10 :=
        ih (m / 10) (Nat.div_lt_self (by omega) (by omega)) (n / 10) (List.reverse_inj.mp h4)
      omega

/-- `Nat.repr` is injective. -/
theorem repr_nat_inj : ∀ m n : Nat, Nat.repr m = Nat.repr n → m = n := by
  intro m n h
  apply decDigits_inj
  rw [← toDigits_eq_decDigits, ← toDigits_eq_decDigits]
  have h2 := congrArg String.data h
  simpa [Nat.repr, List.asString] using h2

/-- Every character of the decimal representation of a natural number is a
digit. -/
theorem repr_nat_digit (n : Nat) : ∀ c ∈ (Nat.repr n).data, c.isDigit = true := by
  intro c hc
  apply decDigits_digits n
  rw [← toDigits_eq_decDigits]
  simpa [Nat.repr, List.asString] using hc

/-- A list equation with a single separator character on each side and no
separator in either prefix determines both the prefixes and the suffixes. -/
theorem splitSep_unique : ∀ (a a2 b b2 : List Char), (∀ c ∈ a, c ≠ '_') →
    (∀ c ∈ a2, c ≠ '_') → a ++ '_' :: b = a2 ++ '_' :: b2 → a = a2 ∧ b = b2 := by
  intro a
  induction a with
  | nil =>
    intro a2 b b2 _ h2 h
    cases a2 with
    | nil => simpa using h
    | cons x t =>
      simp only [List.nil_append, List.cons_append, List.cons.injEq] at h
      exact absurd h.1.symm (h2 x (by simp))
  | cons x t ih =>
    intro a2 b b2 h1 h2 h
    cases a2 with
    | nil =>
      simp only [List.nil_append, List.cons_append, List.cons.injEq] at h
      exact absurd h.1 (h1 x (by simp))
    | cons y t2 =>
      simp only [List.cons_append, List.cons.injEq] at h
      obtain ⟨hxy, hrest⟩ := h
      obtain ⟨ht, hb⟩ := ih t2 b b2 (fun c hc => h1 c (by simp [hc]))
        (fun c hc => h2 c (by simp [hc])) hrest
      exact ⟨by rw [hxy, ht], hb⟩

/-- No character of a decimal representation is the underscore. -/
theorem repr_nat_no_underscore (n : Nat) : ∀ c ∈ (Nat.repr n).data, c ≠ '_' := by
  intro c hc hEq
  have := repr_nat_digit n c hc
  rw [hEq] at this
  simp [Char.isDigit] at this

/-- The store keys `f"{row}_{col}"` are injective in the row and column. -/
theorem imgKey_inj {r c r2 c2 : Nat} (h : imgKey r c = imgKey r2 c2) : r = r2 ∧ c = c2 := by
  unfold imgKey at h
  have hd := congrArg String.data h
  simp only [String.data_append] at hd
  have hd2 : (Nat.repr r).data ++ '_' :: (Nat.repr c).data =
      (Nat.repr r2).data ++ '_' :: (Nat.repr c2).data := by
    simpa using hd
  obtain ⟨ha, hb⟩ := splitSep_unique _ _ _ _ (repr_nat_no_underscore r)
    (repr_nat_no_underscore r2) hd2
  constructor
  · exact repr_nat_inj r r2 (by apply String.ext; exact ha)
  · exact repr_nat_inj c c2 (by apply String.ext; exact hb)

/-- A retryable failure (timeout, network error, or non-ok status). -/
def retryable (net : String → Nat → Resp) (url : String) (attempt : Nat) : Prop :=
  net url attempt = Resp.timeout ∨ net url attempt = Resp.netError ∨
    ∃ st ct content w, net url attempt = Resp.reply st ct content w ∧ respOk st = false

/-- A retryable failure on a non-final attempt makes the loop continue with
the next attempt, counting this iteration and its timeout. -/
theorem dlLoop_step_retry (net : String → Nat → Resp) (url : String) (row col attempt fuel : Nat)
    (h : retryable net url attempt) (hlast : ¬attempt = max_retries - 1) :
    dlLoop net url row col attempt (fuel + 1) =
      ⟨(dlLoop net url row col (attempt + 1) fuel).success,
       (dlLoop net url row col (attempt + 1) fuel).payload,
       (dlLoop net url row col (attempt + 1) fuel).attempts + 1,
       currentTimeout attempt :: (dlLoop net url row col (attempt + 1) fuel).timeouts,
       (dlLoop net url row col (attempt + 1) fuel).written⟩ := by
  rcases h with h | h | ⟨st, ct, content, w, h, hok⟩
  · simp [dlLoop, h, hlast]
  · simp [dlLoop, h, hlast]
  · simp [dlLoop, h, hlast, hok]

/-- A retryable failure on the final attempt is a terminal failure. -/
theorem dlLoop_step_retry_last (net : String → Nat → Resp) (url : String)
    (row col attempt fuel : Nat) (h : retryable net url attempt)
    (hlast : attempt = max_retries - 1) :
    dlLoop net url row col attempt (fuel + 1) =
      ⟨false, none, 1, [currentTimeout attempt], none⟩ := by
  subst hlast
  rcases h with h | h | ⟨st, ct, content, w, h, hok⟩
  · simp [dlLoop, h]
  · simp [dlLoop, h]
  · simp [dlLoop, h, hok]

/-- An ok reply whose content type is not `image/...` returns immediately,
on any attempt, with a single iteration counted. -/
theorem dlLoop_step_notimage (net : String → Nat → Resp) (url : String)
    (row col attempt fuel : Nat) (st : Nat) (ct : String) (content : List Nat) (w : Bool)
    (h : net url attempt = Resp.reply st ct content w) (hok : respOk st = true)
    (himg : pyStartsWith ct "image/" = false) :
    dlLoop net url row col attempt (fuel + 1) =
      ⟨false, none, 1, [currentTimeout attempt], none⟩ := by
  simp [dlLoop, h, hok, himg]

/-- An ok image reply whose file write succeeds returns success with the
base64 payload and records the written file. -/
theorem dlLoop_step_success (net : String → Nat → Resp) (url : String)
    (row col attempt fuel : Nat) (st : Nat) (ct : String) (content : List Nat)
    (h : net url attempt = Resp.reply st ct content true) (hok : respOk st = true)
    (himg : pyStartsWith ct "image/" = true) :
    dlLoop net url row col attempt (fuel + 1) =
      ⟨true, some (b64encode content), 1, [currentTimeout attempt],
        some (DOWNLOAD_DIR ++ "/" ++ imgKey row col ++ "." ++ extOf ct)⟩ := by
  simp [dlLoop, h, hok, himg]

/-- An ok image reply whose file write raises is caught by the generic
handler and returns failure immediately (no retry, no payload). -/
theorem dlLoop_step_writefail (net : String → Nat → Resp) (url : String)
    (row col attempt fuel : Nat) (st : Nat) (ct : String) (content : List Nat)
    (h : net url attempt = Resp.reply st ct content false) (hok : respOk st = true)
    (himg : pyStartsWith ct "image/" = true) :
    dlLoop net url row col attempt (fuel + 1) =
      ⟨false, none, 1, [currentTimeout attempt], none⟩ := by
  simp [dlLoop, h, hok, himg]

/-- An unexpected exception is terminal immediately. -/
theorem dlLoop_step_unexpected (net : String → Nat → Resp) (url : String)
    (row col attempt fuel : Nat) (h : net url attempt = Resp.unexpected) :
    dlLoop net url row col attempt (fuel + 1) =
      ⟨false, none, 1, [currentTimeout attempt], none⟩ := by
  simp [dlLoop, h]

/-- Every run of the retry loop falls under exactly one step shape; this
exhaustive case split drives the inductive proofs below. -/
theorem dlLoop_cases (net : String → Nat → Resp) (url : String) (attempt : Nat) :
    retryable net url attempt ∨ net url attempt = Resp.unexpected ∨
      ∃ st ct content w, net url attempt = Resp.reply st ct content w ∧ respOk st = true := by
  rcases hnet : net url attempt with _ | _ | _ | ⟨st, ct, content, w⟩
  · exact Or.inl (Or.inl hnet)
  · exact Or.inl (Or.inr (Or.inl hnet))
  · exact Or.inr (Or.inl rfl)
  · by_cases hok : respOk st = true
    · exact Or.inr (Or.inr ⟨st, ct, content, w, rfl, hok⟩)
    · exact Or.inl (Or.inr (Or.inr ⟨st, ct, content, w, hnet, by simpa using hok⟩))

/-- The retry loop runs at most as many iterations as it has fuel. -/
theorem dlLoop_attempts_le (net : String → Nat → Resp) (url : String) (row col : Nat) :
    ∀ fuel attempt, (dlLoop net url row col attempt fuel).attempts ≤ fuel := by
  intro fuel
  induction fuel with
  | zero => intro attempt; simp [dlLoop]
  | succ f ih =>
    intro attempt
    rcases dlLoop_cases net url attempt with h | h | ⟨st, ct, content, w, h, hok⟩
    · by_cases hlast : attempt = max_retries - 1
      · rw [dlLoop_step_retry_last net url row col attempt f h hlast]
        simp
      · rw [dlLoop_step_retry net url row col attempt f h hlast]
        have := ih (attempt + 1)
        simp only []
        omega
    · rw [dlLoop_step_unexpected net url row col attempt f h]
      simp
    · by_cases himg : pyStartsWith ct "image/" = true
      · cases w with
        | true =>
          rw [dlLoop_step_success net url row col attempt f st ct content h hok himg]
          simp
        | false =>
          rw [dlLoop_step_writefail net url row col attempt f st ct content h hok himg]
          simp
      · rw [dlLoop_step_notimage net url row col attempt f st ct content w h hok
          (by simpa using himg)]
        simp

/-- The timeouts list of the retry loop has one entry per iteration run. -/
theorem dlLoop_timeouts_length (net : String → Nat → Resp) (url : String) (row col : Nat) :
    ∀ fuel attempt, (dlLoop net url row col attempt fuel).timeouts.length =
      (dlLoop net url row col attempt fuel).attempts := by
  intro fuel
  induction fuel with
  | zero => intro attempt; simp [dlLoop]
  | succ f ih =>
    intro attempt
    rcases dlLoop_cases net url attempt with h | h | ⟨st, ct, content, w, h, hok⟩
    · by_cases hlast : attempt = max_retries - 1
      · rw [dlLoop_step_retry_last net url row col attempt f h hlast]
        rfl
      · rw [dlLoop_step_retry net url row col attempt f h hlast]
        simp [ih (attempt + 1)]
    · rw [dlLoop_step_unexpected net url row col attempt f h]
      rfl
    · by_cases himg : pyStartsWith ct "image/" = true
      · cases w with
        | true =>
          rw [dlLoop_step_success net url row col attempt f st ct content h hok himg]
          rfl
        | false =>
          rw [dlLoop_step_writefail net url row col attempt f st ct content h hok himg]
          rfl
      · rw [dlLoop_step_notimage net url row col attempt f st ct content w h hok
          (by simpa using himg)]
        rfl

/-- The timeout recorded for the k-th iteration run by the loop started at
`attempt` is the timeout of attempt `attempt + k`. -/
theorem dlLoop_timeouts_getD (net : String → Nat → Resp) (url : String) (row col : Nat) :
    ∀ fuel attempt k, k < (dlLoop net url row col attempt fuel).attempts →
      (dlLoop net url row col attempt fuel).timeouts.getD k 0 =
        currentTimeout (attempt + k) := by
  intro fuel
  induction fuel with
  | zero => intro attempt k hk; simp [dlLoop] at hk
  | succ f ih =>
    intro attempt k hk
    rcases dlLoop_cases net url attempt with h | h | ⟨st, ct, content, w, h, hok⟩
    · by_cases hlast : attempt = max_retries - 1
      · rw [dlLoop_step_retry_last net url row col attempt f h hlast] at hk ⊢
        simp at hk
        simp [hk]
      · rw [dlLoop_step_retry net url row col attempt f h hlast] at hk ⊢
        simp only [] at hk
        rcases k with _ | k
        · simp
        · simp only [List.getD_cons_succ]
          rw [ih (attempt + 1) k (by simp at hk; omega)]
          congr 1
          omega
    · rw [dlLoop_step_unexpected net url row col attempt f h] at hk ⊢
      simp at hk
      simp [hk]
    · by_cases himg : pyStartsWith ct "image/" = true
      · cases w with
        | true =>
          rw [dlLoop_step_success net url row col attempt f st ct content h hok himg] at hk ⊢
          simp at hk
          simp [hk]
        | false =>
          rw [dlLoop_step_writefail net url row col attempt f st ct content h hok himg] at hk ⊢
          simp at hk
          simp [hk]
      · rw [dlLoop_step_notimage net url row col attempt f st ct content w h hok
          (by simpa using himg)] at hk ⊢
        simp at hk
        simp [hk]

/-- A successful run of the retry loop came from an ok image reply whose
file write succeeded, and its payload is the base64 of that reply's bytes. -/
theorem dlLoop_success_spec (net : String → Nat → Resp) (url : String) (row col : Nat) :
    ∀ fuel attempt, (dlLoop net url row col attempt fuel).success = true →
      ∃ k st ct content, net url k = Resp.reply st ct content true ∧ respOk st = true ∧
        pyStartsWith ct "image/" = true ∧
        (dlLoop net url row col attempt fuel).payload = some (b64encode content) := by
  intro fuel
  induction fuel with
  | zero => intro attempt h; simp [dlLoop] at h
  | succ f ih =>
    intro attempt h
    rcases dlLoop_cases net url attempt with hc | hc | ⟨st, ct, content, w, hc, hok⟩
    · by_cases hlast : attempt = max_retries - 1
      · rw [dlLoop_step_retry_last net url row col attempt f hc hlast] at h
        simp at h
      · rw [dlLoop_step_retry net url row col attempt f hc hlast] at h ⊢
        obtain ⟨k, st, ct, content, hk, hok, himg, hpay⟩ := ih (attempt + 1) (by simpa using h)
        exact ⟨k, st, ct, content, hk, hok, himg, by simpa using hpay⟩
    · rw [dlLoop_step_unexpected net url row col attempt f hc] at h
      simp at h
    · by_cases himg : pyStartsWith ct "image/" = true
      · cases w with
        | true =>
          rw [dlLoop_step_success net url row col attempt f st ct content hc hok himg] at h ⊢
          exact ⟨attempt, st, ct, content, hc, hok, himg, rfl⟩
        | false =>
          rw [dlLoop_step_writefail net url row col attempt f st ct content hc hok himg] at h
          simp at h
      · rw [dlLoop_step_notimage net url row col attempt f st ct content w hc hok
          (by simpa using himg)] at h
        simp at h

/-- Claim C5: an ok response whose content type does not begin with
`image/` is a terminal failure immediately, with no further attempts,
whichever attempt receives it; when it arrives on the first attempt the
total attempt count is 1 and the call returns `(False, None)`. -/
theorem claim_C5 (net : String → Nat → Resp) (url : String) (row col : Nat) :
    (∀ attempt fuel st ct content w, net url attempt = Resp.reply st ct content w →
      respOk st = true → pyStartsWith ct "image/" = false →
      dlLoop net url row col attempt (fuel + 1) =
        ⟨false, none, 1, [currentTimeout attempt], none⟩)
    ∧ (∀ st ct content w, net url 0 = Resp.reply st ct content w → respOk st = true →
      pyStartsWith ct "image/" = false →
      (download_image net url row col).success = false ∧
      (download_image net url row col).payload = none ∧
      (download_image net url row col).attempts = 1) := by
  constructor
  · intro attempt fuel st ct content w h hok himg
    exact dlLoop_step_notimage net url row col attempt fuel st ct content w h hok himg
  · intro st ct content w h hok himg
    have heq : download_image net url row col = ⟨false, none, 1, [currentTimeout 0], none⟩ := by
      unfold download_image
      exact dlLoop_step_notimage net url row col 0 2 st ct content w h hok himg
    rw [heq]
    exact ⟨rfl, rfl, rfl⟩

/-- Witness for claim C5 at a concrete `text/html` response. -/
theorem claim_C5_witness :
    (download_image (fun _ _ => Resp.reply 200 "text/html" [] true) "http://u" 2 24).attempts
      = 1 :=
  ((claim_C5 (fun _ _ => Resp.reply 200 "text/html" [] true) "http://u" 2 24).2 200 "text/html"
    [] true rfl (by decide) (by decide)).2.2

/-- Claim C6: at most 3 attempts; the timeout of attempt `k` is
`10 * 1.5 ^ k`; a retryable failure (timeout, network error or non-ok
status) continues with the next attempt unless it happens on the final
attempt, in which case it is a terminal failure. -/
theorem claim_C6 (net : String → Nat → Resp) (url : String) (row col : Nat) :
    (download_image net url row col).attempts ≤ 3
    ∧ base_timeout = 10 ∧ timeout_multiplier = 3 / 2
    ∧ (∀ k, k < (download_image net url row col).attempts →
        (download_image net url row col).timeouts.getD k 0 =
          base_timeout * timeout_multiplier ^ k)
    ∧ (∀ attempt fuel, retryable net url attempt →
        (¬attempt = max_retries - 1 →
          dlLoop net url row col attempt (fuel + 1) =
            ⟨(dlLoop net url row col (attempt + 1) fuel).success,
             (dlLoop net url row col (attempt + 1) fuel).payload,
             (dlLoop net url row col (attempt + 1) fuel).attempts + 1,
             currentTimeout attempt :: (dlLoop net url row col (attempt + 1) fuel).timeouts,
             (dlLoop net url row col (attempt + 1) fuel).written⟩)
        ∧ (attempt = max_retries - 1 →
          dlLoop net url row col attempt (fuel + 1) =
            ⟨false, none, 1, [currentTimeout attempt], none⟩)) := by
  refine ⟨dlLoop_attempts_le net url row col max_retries 0, rfl, rfl, ?_, ?_⟩
  · intro k hk
    have h := dlLoop_timeouts_getD net url row col max_retries 0 k hk
    simpa [currentTimeout] using h
  · intro attempt fuel h
    exact ⟨fun hlast => dlLoop_step_retry net url row col attempt fuel h hlast,
      fun hlast => dlLoop_step_retry_last net url row col attempt fuel h hlast⟩

/-- Witness for claim C6: with every attempt timing out, the second
attempt's timeout is `10 * 1.5`. -/
theorem claim_C6_witness :
    (download_image (fun _ _ => Resp.timeout) "http://u" 2 24).timeouts.getD 1 0 =
      base_timeout * timeout_multiplier ^ 1 :=
  (claim_C6 (fun _ _ => Resp.timeout) "http://u" 2 24).2.2.2.1 1 (by decide)

/-- Counterexample to claim C7 as stated: a valid image response whose
file write fails makes the fetch return failure `(False, None)` even
though the bytes encode to a non-empty base64 string. -/
theorem claim_C7_counterexample :
    (download_image (fun _ _ => Resp.reply 200 "image/png" [1, 2, 3] false) "http://u" 2
        24).success = false ∧
    (download_image (fun _ _ => Resp.reply 200 "image/png" [1, 2, 3] false) "http://u" 2
        24).payload = none ∧
    b64encode [1, 2, 3] ≠ "" := by
  exact ⟨by decide, by decide, by decide⟩

/-- Claim C7 amended: when the response is a valid image but the file
write raises, the exception is caught by the generic handler and the fetch
returns a terminal failure `(False, None)` after that single attempt; the
base64 payload is not produced. -/
theorem claim_C7 (net : String → Nat → Resp) (url : String) (row col attempt fuel st : Nat)
    (ct : String) (content : List Nat)
    (h : net url attempt = Resp.reply st ct content false) (hok : respOk st = true)
    (himg : pyStartsWith ct "image/" = true) :
    dlLoop net url row col attempt (fuel + 1) = ⟨false, none, 1, [currentTimeout attempt], none⟩
    ∧ (attempt = 0 → (download_image net url row col).success = false ∧
        (download_image net url row col).payload = none ∧
        (download_image net url row col).attempts = 1) := by
  refine ⟨dlLoop_step_writefail net url row col attempt fuel st ct content h hok himg, ?_⟩
  intro h0
  subst h0
  have heq : download_image net url row col = ⟨false, none, 1, [currentTimeout 0], none⟩ := by
    unfold download_image
    exact dlLoop_step_writefail net url row col 0 2 st ct content h hok himg
  rw [heq]
  exact ⟨rfl, rfl, rfl⟩

/-- Witness for the amended claim C7 at a concrete failing write. -/
theorem claim_C7_witness :
    dlLoop (fun _ _ => Resp.reply 200 "image/png" [7] false) "http://u" 3 25 0 (1 + 1) =
      ⟨false, none, 1, [currentTimeout 0], none⟩ :=
  (claim_C7 (fun _ _ => Resp.reply 200 "image/png" [7] false) "http://u" 3 25 0 1 200
    "image/png" [7] rfl (by decide) (by decide)).1

/-- Lookup after updating in place every entry whose key is `k`. -/
theorem assocLookup_map_set (k v q : String) : ∀ (m : List (String × String)),
    assocLookup (m.map (fun p => if p.1 = k then (p.1, v) else p)) q =
      match assocLookup m q with
      | none => none
      | some w => if q = k then some v else some w := by
  intro m
  induction m with
  | nil => simp [assocLookup]
  | cons p rest ih =>
    by_cases hp : p.1 = k <;> by_cases hq : p.1 = q
    · simp only [List.map_cons, if_pos hp, assocLookup, if_pos hq]
      rw [← hp, hq]
      simp
    · simp only [List.map_cons, if_pos hp, assocLookup, if_neg hq, ih]
    · simp only [List.map_cons, if_neg hp, assocLookup, if_pos hq]
      have : ¬q = k := fun h => hp (hq.trans h)
      simp [this]
    · simp only [List.map_cons, if_neg hp, assocLookup, if_neg hq, ih]

/-- Lookup after appending a single fresh pair at the end. -/
theorem assocLookup_append_one (k v q : String) : ∀ (m : List (String × String)),
    assocLookup (m ++ [(k, v)]) q =
      match assocLookup m q with
      | none => if k = q then some v else none
      | some w => some w := by
  intro m
  induction m with
  | nil => simp [assocLookup]
  | cons p rest ih =>
    by_cases hq : p.1 = q
    · simp [assocLookup, hq]
    · simp only [List.cons_append, assocLookup, if_neg hq]
      exact ih

/-- The `in` test of a Python dict agrees with lookup success. -/
theorem assocLookup_any (k : String) : ∀ (m : List (String × String)),
    m.any (fun p => decide (p.1 = k)) = (assocLookup m k).isSome := by
  intro m
  induction m with
  | nil => simp [assocLookup]
  | cons p rest ih =>
    by_cases hp : p.1 = k <;> simp [assocLookup, hp, ih]

/-- Lookup at the inserted key yields the inserted value. -/
theorem assocLookup_dictInsert_self (m : List (String × String)) (k v : String) :
    assocLookup (dictInsert m k v) k = some v := by
  unfold dictInsert
  by_cases h : m.any (fun p => decide (p.1 = k)) = true
  · rw [if_pos h, assocLookup_map_set]
    rw [assocLookup_any] at h
    cases hm : assocLookup m k with
    | none => rw [hm] at h; simp at h
    | some w => simp
  · rw [if_neg h, assocLookup_append_one]
    rw [assocLookup_any] at h
    cases hm : assocLookup m k with
    | none => simp
    | some w => rw [hm] at h; simp at h

/-- Lookup at any other key is unchanged by an insertion. -/
theorem assocLookup_dictInsert_other (m : List (String × String)) (k v q : String)
    (hq : ¬q = k) : assocLookup (dictInsert m k v) q = assocLookup m q := by
  unfold dictInsert
  by_cases h : m.any (fun p => decide (p.1 = k)) = true
  · rw [if_pos h, assocLookup_map_set]
    cases hm : assocLookup m q with
    | none => simp
    | some w => simp [hq]
  · rw [if_neg h, assocLookup_append_one]
    cases hm : assocLookup m q with
    | none =>
      have hkq : ¬k = q := fun hkq => hq hkq.symm
      simp [hkq]
    | some w => simp

/-- When no task for cell `(r, c)` in the list succeeds, folding the
download step leaves the lookup at key `f"{r}_{c}"` unchanged. -/
theorem dlFold_lookup_none (net : String → Nat → Resp) (r c : Nat) :
    ∀ (L : List (String × Nat × Nat)) (init : List (String × String)),
      (∀ u, (u, r, c) ∈ L → (download_image net u r c).success = false) →
      assocLookup (L.foldl (dlStep net) init) (imgKey r c) = assocLookup init (imgKey r c) := by
  intro L
  induction L with
  | nil => intro init _; rfl
  | cons t rest ih =>
    intro init h
    obtain ⟨u, a, b⟩ := t
    simp only [List.foldl_cons]
    rw [ih _ (fun u2 hu2 => h u2 (List.mem_cons_of_mem _ hu2))]
    unfold dlStep
    by_cases hs : (download_image net u a b).success = true
    · have hne : ¬(a = r ∧ b = c) := by
        rintro ⟨rfl, rfl⟩
        have hf := h u (List.mem_cons_self _ _)
        rw [hf] at hs
        exact Bool.false_ne_true hs
      have hkey : ¬imgKey r c = imgKey a b := by
        intro hk
        obtain ⟨h1, h2⟩ := imgKey_inj hk
        exact hne ⟨h1.symm, h2.symm⟩
      simp only [hs, if_true]
      exact assocLookup_dictInsert_other _ _ _ _ hkey
    · simp only [Bool.not_eq_true] at hs
      simp [hs]

/-- When some task for cell `(r, c)` succeeds and all tasks for that cell
carry the same URL, the folded store holds that download's payload at key
`f"{r}_{c}"`. -/
theorem dlFold_lookup_some (net : String → Nat → Resp) (r c : Nat) :
    ∀ (L : List (String × Nat × Nat)) (init : List (String × String)),
      (∀ u1 u2, (u1, r, c) ∈ L → (u2, r, c) ∈ L → u1 = u2) →
      ∀ u, (u, r, c) ∈ L → (download_image net u r c).success = true →
        assocLookup (L.foldl (dlStep net) init) (imgKey r c) =
          some ((download_image net u r c).payload.getD "") := by
  intro L
  induction L with
  | nil => intro init _ u hu; simp at hu
  | cons t rest ih =>
    intro init hU u hu hs
    obtain ⟨u0, a, b⟩ := t
    simp only [List.foldl_cons]
    rcases List.mem_cons.mp hu with heq | hmem
    · simp only [Prod.mk.injEq] at heq
      obtain ⟨h1, h2, h3⟩ := heq
      subst h1; subst h2; subst h3
      by_cases hex : ∃ u2, (u2, r, c) ∈ rest ∧ (download_image net u2 r c).success = true
      · obtain ⟨u2, hmem2, hs2⟩ := hex
        rw [ih (dlStep net init (u, r, c))
          (fun v1 v2 hv1 hv2 => hU v1 v2 (List.mem_cons_of_mem _ hv1)
            (List.mem_cons_of_mem _ hv2)) u2 hmem2 hs2]
        rw [hU u2 u (List.mem_cons_of_mem _ hmem2) (List.mem_cons_self _ _)]
      · push_neg at hex
        rw [dlFold_lookup_none net r c rest _
          (fun u2 h2 => by simpa using hex u2 h2)]
        unfold dlStep
        simp only [hs, if_true]
        exact assocLookup_dictInsert_self _ _ _
    · exact ih _
        (fun v1 v2 hv1 hv2 => hU v1 v2 (List.mem_cons_of_mem _ hv1)
          (List.mem_cons_of_mem _ hv2)) u hmem hs

/-- Membership characterization of the task list: a task `(url, r, c)` is
collected exactly when `r` is the 1-indexed number of a data row whose
0-based element `c`, for `c` in `range(24, 30)`, is a string starting with
`http`. -/
theorem collectTasks_mem (sheet : List (List Val)) (url : String) (r c : Nat) :
    (url, r, c) ∈ collectTasks sheet ↔
      ∃ row, (sheet.drop 1).get? (r - 2) = some row ∧ 2 ≤ r ∧ 24 ≤ c ∧ c < 30 ∧
        row.getD c Val.vNone = Val.vStr url ∧ url.isEmpty = false ∧
        pyStartsWith url "http" = true := by
  unfold collectTasks
  rw [List.mem_flatMap]
  constructor
  · rintro ⟨p, hp, hmem⟩
    rw [List.mem_filterMap] at hmem
    obtain ⟨col, hcol, hsome⟩ := hmem
    rw [List.mem_range'] at hcol
    obtain ⟨i, hi6, hieq⟩ := hcol
    rcases hv : p.2.getD col Val.vNone with _ | sv | n
    · rw [hv] at hsome; simp at hsome
    · rw [hv] at hsome
      by_cases hcond : (!sv.isEmpty && pyStartsWith sv "http") = true
      · simp only [hcond, if_true, Option.some.injEq, Prod.mk.injEq] at hsome
        obtain ⟨hu, hr, hc⟩ := hsome
        subst hu; subst hr; subst hc
        rw [List.mem_enum_iff_get?] at hp
        have hand : sv.isEmpty = false ∧ pyStartsWith sv "http" = true := by
          simpa using hcond
        refine ⟨p.2, by simpa using hp, by omega, by omega, by omega, hv, hand.1, hand.2⟩
      · simp only [Bool.not_eq_true] at hcond
        simp [hcond] at hsome
    · rw [hv] at hsome; simp at hsome
  · rintro ⟨row, hg, hr, hc1, hc2, hv, hne, hsw⟩
    refine ⟨(r - 2, row), ?_, ?_⟩
    · rw [List.mem_enum_iff_get?]
      exact hg
    · rw [List.mem_filterMap]
      refine ⟨c, ?_, ?_⟩
      · rw [List.mem_range']
        exact ⟨c - 24, by omega, by omega⟩
      · have hped : (((r : Nat) - 2, row) : Nat × List Val).2.getD c Val.vNone
            = Val.vStr url := hv
        rw [hped]
        have hcond : (!url.isEmpty && pyStartsWith url "http") = true := by
          rw [hne, hsw]
          rfl
        simp only [hcond, if_true, Option.some.injEq, Prod.mk.injEq, true_and, and_true]
        omega

/-- All tasks collected for one cell carry the same URL (the cell's
value). -/
theorem collectTasks_unique (sheet : List (List Val)) (r c : Nat) :
    ∀ u1 u2, (u1, r, c) ∈ collectTasks sheet → (u2, r, c) ∈ collectTasks sheet → u1 = u2 := by
  intro u1 u2 h1 h2
  rw [collectTasks_mem] at h1 h2
  obtain ⟨row1, hg1, _, _, _, hv1, _, _⟩ := h1
  obtain ⟨row2, hg2, _, _, _, hv2, _, _⟩ := h2
  rw [hg1] at hg2
  injection hg2 with hrow
  subst hrow
  rw [hv1] at hv2
  cases hv2
  rfl

/-- Base64 of a nonempty byte sequence is nonempty. -/
theorem b64encode_ne_empty : ∀ (bs : List Nat), bs ≠ [] → b64encode bs ≠ "" := by
  intro bs h
  match bs with
  | [] => exact absurd rfl h
  | [a] =>
    intro he
    exact absurd (congrArg String.data he) (by simp [b64encode])
  | [a, b] =>
    intro he
    exact absurd (congrArg String.data he) (by simp [b64encode])
  | a :: b :: c :: rest =>
    intro he
    have hd := congrArg String.data he
    simp [b64encode, String.data_append] at hd

/-- Counterexample to claim C1 as stated: the data cell at 1-indexed
column 24 (0-based element 23) holds an `http` string yet yields no task,
while a cell at 1-indexed column 30 (0-based element 29) does yield one. -/
theorem claim_C1_counterexample :
    collectTasks [List.replicate 30 Val.vNone,
      List.replicate 23 Val.vNone ++ [Val.vStr "http://a"] ++ List.replicate 6 Val.vNone] = []
    ∧ (List.replicate 23 Val.vNone ++ [Val.vStr "http://a"]
        ++ List.replicate 6 Val.vNone).getD 23 Val.vNone = Val.vStr "http://a"
    ∧ collectTasks [List.replicate 30 Val.vNone,
        List.replicate 29 Val.vNone ++ [Val.vStr "http://b"]] = [("http://b", 2, 29)] := by
  exact ⟨by decide, by decide, by decide⟩

/-- Claim C1 amended: on sheets of width at least 30 (so that the Python
indexing `row[col]` is defined), a `DownloadTask` is created exactly for
the cells at 0-based positions 24-29 of a data row (1-indexed columns
25-30) whose value is a string starting with `http`; no other cell yields
a task. -/
theorem claim_C1 (sheet : List (List Val)) (hw : ∀ row ∈ sheet, 30 ≤ row.length)
    (url : String) (r c : Nat) :
    (url, r, c) ∈ collectTasks sheet ↔
      ∃ row, (sheet.drop 1).get? (r - 2) = some row ∧ 2 ≤ r ∧ 24 ≤ c ∧ c < 30 ∧
        row.getD c Val.vNone = Val.vStr url ∧ url.isEmpty = false ∧
        pyStartsWith url "http" = true :=
  collectTasks_mem sheet url r c

/-- Witness for the amended claim C1 at a concrete sheet. -/
theorem claim_C1_witness :
    ("http://a", 2, 24) ∈ collectTasks
      [List.replicate 30 Val.vNone,
       List.replicate 24 Val.vNone ++ [Val.vStr "http://a"] ++ List.replicate 5 Val.vNone] :=
  (claim_C1 _ (by decide) "http://a" 2 24).mpr
    ⟨List.replicate 24 Val.vNone ++ [Val.vStr "http://a"] ++ List.replicate 5 Val.vNone,
     by decide, by decide, by decide, by decide, by decide, by decide, by decide⟩

/-- Counterexample to claim C3 as stated: a validated image response with
an empty body stores an empty base64 string, so a present key can map to
empty content. -/
theorem claim_C3_counterexample :
    assocLookup
      (download_images
        [List.replicate 30 Val.vNone,
         List.replicate 24 Val.vNone ++ [Val.vStr "http://a"] ++ List.replicate 5 Val.vNone]
        (fun _ _ => Resp.reply 200 "image/png" [] true))
      (imgKey 2 24) = some "" := by decide

/-- Claim C3 amended: after acquisition the key `f"{r}_{c}"` is absent
from the store exactly when every task for that cell failed (or none was
attempted); every successful task stores the base64 encoding of the bytes
of the validated image response, and base64 is non-empty whenever the
fetched bytes are non-empty. -/
theorem claim_C3 (sheet : List (List Val)) (net : String → Nat → Resp)
    (hw : ∀ row ∈ sheet, 30 ≤ row.length) (r c : Nat) :
    (assocLookup (download_images sheet net) (imgKey r c) = none ↔
      ∀ url, (url, r, c) ∈ collectTasks sheet → (download_image net url r c).success = false)
    ∧ (∀ url, (url, r, c) ∈ collectTasks sheet → (download_image net url r c).success = true →
        ∃ k st ct bytes, net url k = Resp.reply st ct bytes true ∧ respOk st = true ∧
          pyStartsWith ct "image/" = true ∧
          assocLookup (download_images sheet net) (imgKey r c) = some (b64encode bytes))
    ∧ (∀ bytes : List Nat, bytes ≠ [] → b64encode bytes ≠ "") := by
  refine ⟨⟨?_, ?_⟩, ?_, b64encode_ne_empty⟩
  · intro hnone url hmem
    by_contra hs
    simp only [Bool.not_eq_false] at hs
    have hsome := dlFold_lookup_some net r c (collectTasks sheet) []
      (collectTasks_unique sheet r c) url hmem hs
    unfold download_images at hnone
    rw [hnone] at hsome
    exact Option.noConfusion hsome
  · intro hall
    unfold download_images
    rw [dlFold_lookup_none net r c _ _ hall]
    rfl
  · intro url hmem hs
    obtain ⟨k, st, ct, bytes, hk, hok, himg, hpay⟩ :=
      dlLoop_success_spec net url r c max_retries 0 hs
    refine ⟨k, st, ct, bytes, hk, hok, himg, ?_⟩
    unfold download_images
    rw [dlFold_lookup_some net r c _ [] (collectTasks_unique sheet r c) url hmem hs]
    unfold download_image
    rw [hpay]
    rfl

/-- Witness for the amended claim C3: a successful download is stored
under its key with the base64 payload of the response bytes. -/
theorem claim_C3_witness :
    ∃ (k st : Nat) (ct : String) (bytes : List Nat),
      Resp.reply 200 "image/png" [1, 2] true = Resp.reply st ct bytes true ∧
      respOk st = true ∧ pyStartsWith ct "image/" = true ∧
      assocLookup
        (download_images
          [List.replicate 30 Val.vNone,
           List.replicate 24 Val.vNone ++ [Val.vStr "http://a"] ++ List.replicate 5 Val.vNone]
          (fun _ _ => Resp.reply 200 "image/png" [1, 2] true))
        (imgKey 2 24) = some (b64encode bytes) :=
  (claim_C3
    [List.replicate 30 Val.vNone,
     List.replicate 24 Val.vNone ++ [Val.vStr "http://a"] ++ List.replicate 5 Val.vNone]
    (fun _ _ => Resp.reply 200 "image/png" [1, 2] true) (by decide) 2 24).2.1
    "http://a" (by
      rw [collectTasks_mem]
      exact ⟨List.replicate 24 Val.vNone ++ [Val.vStr "http://a"] ++ List.replicate 5 Val.vNone,
        by decide, by decide, by decide, by decide, by decide, by decide, by decide⟩)
    (by decide)

/-- Every image item added by one cell step of the Report Assembler comes
from a store lookup at key `f"{rowIdx}_{j+1}"`, where `j` is the cell's
0-based position (so `j + 1` is its 1-indexed column, in 24-29). -/
theorem processCell_images (store : List (String × String)) (headers : List Val)
    (rowIdx : Nat) (acc : List (Val × Val) × List ImageItem) (jc : Nat × Val) :
    ∀ img ∈ (processCell store headers rowIdx acc jc).2, img ∈ acc.2 ∨
      (23 ≤ jc.1 ∧ jc.1 + 1 < 30 ∧
        assocLookup store (imgKey rowIdx (jc.1 + 1)) = some img.data) := by
  intro img himg
  simp only [processCell] at himg
  by_cases h1 : headers.length ≤ jc.1
  · rw [if_pos h1] at himg
    exact Or.inl himg
  · rw [if_neg h1] at himg
    by_cases h2 : headers.getD jc.1 Val.vNone ∈ excluded_headers
    · rw [if_pos h2] at himg
      exact Or.inl himg
    · rw [if_neg h2] at himg
      by_cases h3 : (decide (24 ≤ jc.1 + 1 ∧ jc.1 + 1 < 30) && pyTruthy jc.2 &&
          (match jc.2 with | Val.vStr s => pyStartsWith s "http" | _ => false)) = true
      · rw [if_pos h3] at himg
        cases hl : assocLookup store (imgKey rowIdx (jc.1 + 1)) with
        | none =>
          rw [hl] at himg
          exact Or.inl himg
        | some b64 =>
          rw [hl] at himg
          rcases List.mem_append.mp himg with hin | hnew
          · exact Or.inl hin
          · have himgeq : img = ⟨headers.getD jc.1 Val.vNone, b64,
                "Columna " ++ colLetter (jc.1 + 1)⟩ := by simpa using hnew
            have hbounds : 24 ≤ jc.1 + 1 ∧ jc.1 + 1 < 30 := by
              have h4 := h3
              simp only [Bool.and_eq_true, decide_eq_true_eq] at h4
              exact h4.1.1
            refine Or.inr ⟨by omega, hbounds.2, ?_⟩
            rw [himgeq]
      · rw [if_neg h3] at himg
        exact Or.inl himg

/-- Every image item of a processed row comes from a store lookup keyed by
the row number and the cell's 1-indexed column. -/
theorem processRow_images_aux (store : List (String × String)) (headers : List Val)
    (rowIdx : Nat) :
    ∀ (l : List (Nat × Val)) (acc : List (Val × Val) × List ImageItem),
      ∀ img ∈ (l.foldl (processCell store headers rowIdx) acc).2,
        img ∈ acc.2 ∨ ∃ jc ∈ l, 23 ≤ jc.1 ∧ jc.1 + 1 < 30 ∧
          assocLookup store (imgKey rowIdx (jc.1 + 1)) = some img.data := by
  intro l
  induction l with
  | nil => intro acc img h; exact Or.inl h
  | cons jc rest ih =>
    intro acc img h
    simp only [List.foldl_cons] at h
    rcases ih (processCell store headers rowIdx acc jc) img h with hacc | ⟨jc2, hm, hb⟩
    · rcases processCell_images store headers rowIdx acc jc img hacc with hin | hnew
      · exact Or.inl hin
      · exact Or.inr ⟨jc, List.mem_cons_self _ _, hnew.1, hnew.2.1, hnew.2.2⟩
    · exact Or.inr ⟨jc2, List.mem_cons_of_mem _ hm, hb⟩

/-- Claim C2: (i) the key the Scheduler stores for a cell (0-based column)
always differs from the key the Assembler looks up for the same cell
(1-indexed column); (ii) the Assembler's lookup at key `f"{r}_{c}"` for
24 ≤ c ≤ 29 succeeds exactly when the download of the cell at 0-based
position `c` of the same row — i.e. 1-indexed column `c + 1` — succeeded;
(iii) every image the Assembler attaches comes from a lookup keyed by the
cell's 1-indexed column `j + 1`. -/
theorem claim_C2 (sheet : List (List Val)) (net : String → Nat → Resp)
    (hw : ∀ row ∈ sheet, 30 ≤ row.length) :
    (∀ r c, ¬imgKey r c = imgKey r (c + 1))
    ∧ (∀ r c row, 2 ≤ r → 24 ≤ c → c < 30 → (sheet.drop 1).get? (r - 2) = some row →
        (¬assocLookup (download_images sheet net) (imgKey r c) = none ↔
          ∃ url, row.getD c Val.vNone = Val.vStr url ∧ url.isEmpty = false ∧
            pyStartsWith url "http" = true ∧ (download_image net url r c).success = true))
    ∧ (∀ store headers rowIdx row img, img ∈ (processRow store headers rowIdx row).2 →
        ∃ j v, row.get? j = some v ∧ 23 ≤ j ∧ j + 1 < 30 ∧
          assocLookup store (imgKey rowIdx (j + 1)) = some img.data) := by
  refine ⟨?_, ?_, ?_⟩
  · intro r c hk
    obtain ⟨_, hc⟩ := imgKey_inj hk
    omega
  · intro r c row hr hc1 hc2 hg
    constructor
    · intro hnn
      by_contra hno
      push_neg at hno
      apply hnn
      unfold download_images
      rw [dlFold_lookup_none net r c _ _ ?_]
      · rfl
      · intro u hmem
        have hmem2 := hmem
        rw [collectTasks_mem] at hmem2
        obtain ⟨row2, hg2, _, _, _, hv2, hne2, hsw2⟩ := hmem2
        rw [hg] at hg2
        injection hg2 with hrow
        subst hrow
        by_contra hsuc
        simp only [Bool.not_eq_false] at hsuc
        exact (hno u) hv2 hne2 hsw2 hsuc
    · rintro ⟨url, hv, hne, hsw, hs⟩
      have hmem : (url, r, c) ∈ collectTasks sheet := by
        rw [collectTasks_mem]
        exact ⟨row, hg, hr, hc1, hc2, hv, hne, hsw⟩
      unfold download_images
      rw [dlFold_lookup_some net r c _ [] (collectTasks_unique sheet r c) url hmem hs]
      exact Option.noConfusion
  · intro store headers rowIdx row img himg
    unfold processRow at himg
    rcases processRow_images_aux store headers rowIdx row.enum ([], []) img himg with
      habs | ⟨jc, hm, hb1, hb2, hb3⟩
    · simp at habs
    · rw [List.mem_enum_iff_get?] at hm
      exact ⟨jc.1, jc.2, hm, hb1, hb2, hb3⟩

/-- Witness for claim C2: the stored key and the looked-up key of one cell
differ at a concrete row and column. -/
theorem claim_C2_witness : ¬imgKey 2 24 = imgKey 2 25 :=
  (claim_C2 [] (fun _ _ => Resp.timeout) (by simp)).1 2 24

/-- Lookup after appending `row` in place to every set whose key is `k`. -/
theorem assocLookup_map_app (k : Val) (row : List Val) (q : Val) :
    ∀ (m : List (Val × List (List Val))),
      assocLookup (m.map (fun p => if p.1 = k then (p.1, p.2 ++ [row]) else p)) q =
        match assocLookup m q with
        | none => none
        | some w => if q = k then some (w ++ [row]) else some w := by
  intro m
  induction m with
  | nil => simp [assocLookup]
  | cons p rest ih =>
    by_cases hp : p.1 = k <;> by_cases hq : p.1 = q
    · simp only [List.map_cons, if_pos hp, assocLookup, if_pos hq]
      rw [← hp, hq]
      simp
    · simp only [List.map_cons, if_pos hp, assocLookup, if_neg hq, ih]
    · simp only [List.map_cons, if_neg hp, assocLookup, if_pos hq]
      have hqk : ¬q = k := fun hx => hp (hq.trans hx)
      simp [hqk]
    · simp only [List.map_cons, if_neg hp, assocLookup, if_neg hq, ih]

/-- Generic lookup after appending a single pair at the end. -/
theorem assocLookup_append_pair {α β : Type} [DecidableEq α] (k : α) (v : β) (q : α) :
    ∀ (m : List (α × β)),
      assocLookup (m ++ [(k, v)]) q =
        match assocLookup m q with
        | none => if k = q then some v else none
        | some w => some w := by
  intro m
  induction m with
  | nil => simp [assocLookup]
  | cons p rest ih =>
    by_cases hq : p.1 = q
    · simp [assocLookup, hq]
    · simp only [List.cons_append, assocLookup, if_neg hq]
      exact ih

/-- Generic agreement of `any` on keys with lookup success. -/
theorem assocLookup_any_iff {α β : Type} [DecidableEq α] (k : α) : ∀ (m : List (α × β)),
    m.any (fun p => decide (p.1 = k)) = (assocLookup m k).isSome := by
  intro m
  induction m with
  | nil => simp [assocLookup]
  | cons p rest ih =>
    by_cases hp : p.1 = k <;> simp [assocLookup, hp, ih]

/-- Flat variant of `assocLookup_map_app` for an absent key. -/
theorem assocLookup_map_app_none (k : Val) (row : List Val) (q : Val)
    (m : List (Val × List (List Val))) (hm : assocLookup m q = none) :
    assocLookup (m.map (fun p => if p.1 = k then (p.1, p.2 ++ [row]) else p)) q = none := by
  rw [assocLookup_map_app, hm]

/-- Flat variant of `assocLookup_map_app` for a present key. -/
theorem assocLookup_map_app_some (k : Val) (row : List Val) (q : Val)
    (m : List (Val × List (List Val))) (w : List (List Val))
    (hm : assocLookup m q = some w) :
    assocLookup (m.map (fun p => if p.1 = k then (p.1, p.2 ++ [row]) else p)) q =
      if q = k then some (w ++ [row]) else some w := by
  rw [assocLookup_map_app, hm]

/-- Flat variant of `assocLookup_append_pair` for an absent key. -/
theorem assocLookup_append_pair_none {α β : Type} [DecidableEq α] (k : α) (v : β) (q : α)
    (m : List (α × β)) (hm : assocLookup m q = none) :
    assocLookup (m ++ [(k, v)]) q = if k = q then some v else none := by
  rw [assocLookup_append_pair, hm]

/-- Flat variant of `assocLookup_append_pair` for a present key. -/
theorem assocLookup_append_pair_some {α β : Type} [DecidableEq α] (k : α) (v : β) (q : α)
    (m : List (α × β)) (w : β) (hm : assocLookup m q = some w) :
    assocLookup (m ++ [(k, v)]) q = some w := by
  rw [assocLookup_append_pair, hm]

/-- One step of the partitioner loop on a data row, once a nonempty header
has been read. -/
theorem fcGo_cons (h row : List Val) (hh : ¬h.isEmpty = true) (rest : List (List Val))
    (acc : List (Val × List (List Val))) :
    fcGo (row :: rest) (some h) acc =
      if pyTruthy (row.getD 1 Val.vNone) = true then
        if (acc.any fun p => decide (p.1 = row.getD 1 Val.vNone)) = true then
          fcGo rest (some h) (acc.map (fun p =>
            if p.1 = row.getD 1 Val.vNone then (p.1, p.2 ++ [row]) else p))
        else fcGo rest (some h) (acc ++ [(row.getD 1 Val.vNone, [h, row])])
      else fcGo rest (some h) acc := by
  simp only [fcGo]
  rw [if_neg (by simpa using hh)]
  rfl

/-- Loop invariant of `filter_cobertura` after the header has been read: the
set looked up for a truthy category `C` extends the accumulated set by the
remaining rows whose second column equals `C`, and is created seeded with
the header at the first such row. -/
theorem fcGo_lookup (h : List Val) (hh : ¬h.isEmpty = true) (C : Val)
    (hC : pyTruthy C = true) :
    ∀ (rows : List (List Val)) (acc : List (Val × List (List Val))),
      assocLookup (fcGo rows (some h) acc) C =
        match assocLookup acc C with
        | some s => some (s ++ rows.filter (fun row => decide (row.getD 1 Val.vNone = C)))
        | none =>
          if (rows.filter (fun row => decide (row.getD 1 Val.vNone = C))).isEmpty = true
          then none
          else some (h :: rows.filter (fun row => decide (row.getD 1 Val.vNone = C))) := by
  intro rows
  induction rows with
  | nil =>
    intro acc
    simp only [fcGo, List.filter_nil]
    cases hacc : assocLookup acc C <;> simp
  | cons row rest ih =>
    intro acc
    rw [fcGo_cons h row hh rest acc]
    by_cases hkey : pyTruthy (row.getD 1 Val.vNone) = true
    · rw [if_pos hkey]
      by_cases heq : row.getD 1 Val.vNone = C
      · have hfil : List.filter (fun r => decide (r.getD 1 Val.vNone = C)) (row :: rest) =
            row :: List.filter (fun r => decide (r.getD 1 Val.vNone = C)) rest :=
          List.filter_cons_of_pos (decide_eq_true heq)
        rw [hfil]
        by_cases hany : (acc.any fun p => decide (p.1 = row.getD 1 Val.vNone)) = true
        · rw [if_pos hany, ih]
          rw [assocLookup_any_iff] at hany
          cases hacc : assocLookup acc C with
          | none =>
            rw [heq, hacc] at hany
            simp at hany
          | some w =>
            rw [assocLookup_map_app_some (row.getD 1 Val.vNone) row C acc w hacc, heq,
              if_pos rfl]
            simp only [List.append_assoc, List.singleton_append]
        · rw [if_neg hany, ih]
          rw [assocLookup_any_iff] at hany
          cases hacc : assocLookup acc C with
          | none =>
            rw [assocLookup_append_pair_none _ _ _ acc hacc, heq, if_pos rfl]
            rw [if_neg (by simp : ¬((row :: List.filter
              (fun r => decide (r.getD 1 Val.vNone = C)) rest).isEmpty = true))]
            simp only [List.cons_append, List.singleton_append, List.nil_append]
          | some w =>
            rw [heq, hacc] at hany
            simp at hany
      · have hfil : List.filter (fun r => decide (r.getD 1 Val.vNone = C)) (row :: rest) =
            List.filter (fun r => decide (r.getD 1 Val.vNone = C)) rest :=
          List.filter_cons_of_neg (fun hpa => heq (of_decide_eq_true hpa))
        rw [hfil]
        by_cases hany : (acc.any fun p => decide (p.1 = row.getD 1 Val.vNone)) = true
        · rw [if_pos hany, ih]
          have hCk : ¬C = row.getD 1 Val.vNone := fun hx => heq hx.symm
          cases hacc : assocLookup acc C with
          | none => rw [assocLookup_map_app_none (row.getD 1 Val.vNone) row C acc hacc]
          | some w =>
            rw [assocLookup_map_app_some (row.getD 1 Val.vNone) row C acc w hacc,
              if_neg hCk]
        · rw [if_neg hany, ih]
          cases hacc : assocLookup acc C with
          | none => rw [assocLookup_append_pair_none _ _ _ acc hacc, if_neg heq]
          | some w => rw [assocLookup_append_pair_some _ _ _ acc w hacc]
    · rw [if_neg hkey]
      have hCne : ¬row.getD 1 Val.vNone = C := fun hx => hkey (by rw [hx]; exact hC)
      have hfil : List.filter (fun r => decide (r.getD 1 Val.vNone = C)) (row :: rest) =
          List.filter (fun r => decide (r.getD 1 Val.vNone = C)) rest :=
        List.filter_cons_of_neg (fun hpa => hCne (of_decide_eq_true hpa))
      rw [hfil]
      exact ih acc

/-- The partitioner never creates a set under a falsy key. -/
theorem fcGo_keys (D : Val) (hD : pyTruthy D = false) :
    ∀ (rows : List (List Val)) (header : Option (List Val))
      (acc : List (Val × List (List Val))),
      assocLookup acc D = none → assocLookup (fcGo rows header acc) D = none := by
  intro rows
  induction rows with
  | nil =>
    intro header acc hacc
    simpa [fcGo] using hacc
  | cons row rest ih =>
    intro header acc hacc
    cases header with
    | none =>
      rw [show fcGo (row :: rest) none acc = fcGo rest (some row) acc from rfl]
      exact ih (some row) acc hacc
    | some hd =>
      by_cases hhd : hd.isEmpty = true
      · rw [show fcGo (row :: rest) (some hd) acc = fcGo rest (some row) acc from by
          simp only [fcGo]
          rw [if_pos (by simpa using hhd)]]
        exact ih (some row) acc hacc
      · rw [fcGo_cons hd row hhd rest acc]
        by_cases hkey : pyTruthy (row.getD 1 Val.vNone) = true
        · by_cases hany : (acc.any fun p => decide (p.1 = row.getD 1 Val.vNone)) = true
          · rw [if_pos hkey, if_pos hany]
            exact ih (some hd) _
              (assocLookup_map_app_none (row.getD 1 Val.vNone) row D acc hacc)
          · rw [if_pos hkey, if_neg hany]
            apply ih
            rw [assocLookup_append_pair_none _ _ _ acc hacc]
            have hne : ¬row.getD 1 Val.vNone = D := by
              intro hx
              rw [hx, hD] at hkey
              exact Bool.noConfusion hkey
            rw [if_neg hne]
        · rw [if_neg hkey]
          exact ih (some hd) acc hacc

/-- Claim C4: for a sheet with a nonempty header row and data rows of
width at least 2 (so that the Python indexing `row[1]` is defined), the set
produced for any truthy category `C` is exactly the header followed by the
data rows whose second column equals `C`, in source order (so each such
record appears exactly once and in no other set); and no set at all exists
under a falsy key, so records with an empty or missing category value are
silently dropped. -/
theorem claim_C4 (h : List Val) (rest : List (List Val)) (hh : h ≠ [])
    (hw : ∀ row ∈ rest, 2 ≤ row.length) (C : Val) (hC : pyTruthy C = true) :
    (assocLookup (filter_cobertura (h :: rest)) C =
      if (rest.filter (fun row => decide (row.getD 1 Val.vNone = C))).isEmpty = true
      then none
      else some (h :: rest.filter (fun row => decide (row.getD 1 Val.vNone = C))))
    ∧ (∀ D, pyTruthy D = false → assocLookup (filter_cobertura (h :: rest)) D = none) := by
  have hh2 : ¬h.isEmpty = true := by
    cases h with
    | nil => exact absurd rfl hh
    | cons x t => simp
  have hstep : filter_cobertura (h :: rest) = fcGo rest (some h) [] := rfl
  constructor
  · rw [hstep, fcGo_lookup h hh2 C hC rest []]
    rfl
  · intro D hD
    rw [hstep]
    exact fcGo_keys D hD rest (some h) [] rfl

/-- Witness for claim C4 at a concrete sheet with two categories and one
record with an empty category cell. -/
theorem claim_C4_witness :
    assocLookup (filter_cobertura
      [[Val.vStr "hdr", Val.vStr "cat"], [Val.vStr "a", Val.vStr "A"],
       [Val.vStr "b", Val.vNone], [Val.vStr "c", Val.vStr "A"]]) (Val.vStr "A") =
      some [[Val.vStr "hdr", Val.vStr "cat"], [Val.vStr "a", Val.vStr "A"],
        [Val.vStr "c", Val.vStr "A"]] := by
  rw [(claim_C4 [Val.vStr "hdr", Val.vStr "cat"]
      [[Val.vStr "a", Val.vStr "A"], [Val.vStr "b", Val.vNone], [Val.vStr "c", Val.vStr "A"]]
      (by decide) (by decide) (Val.vStr "A") (by decide)).1]
  decide

/-- Claim C9: report assembly is a deterministic function of the workbook
contents read back from the output file, the ImageStore and the file name;
two runs on equal inputs produce equal report structures. -/
theorem claim_C9 (wb wb2 : List (String × List (List Val)))
    (store store2 : List (String × String)) (f f2 : String)
    (h1 : wb = wb2) (h2 : store = store2) (h3 : f = f2) :
    extract_report_data wb store f = extract_report_data wb2 store2 f2 := by
  subst h1; subst h2; subst h3
  rfl

/-- Witness for claim C9 at a concrete workbook and store. -/
theorem claim_C9_witness :
    extract_report_data [("Export", [[Val.vStr "h"], [Val.vStr "v"]])] [("2_25", "B")]
        "dir/A.xlsx" =
      extract_report_data [("Export", [[Val.vStr "h"], [Val.vStr "v"]])] [("2_25", "B")]
        "dir/A.xlsx" :=
  claim_C9 _ _ _ _ _ _ rfl rfl rfl

/-- Counterexample to claim C10 as stated: the rendered document embeds the
generation timestamp `datetime.now()`, so two invocations on the same
report and category at different times produce different HTML documents —
the renderer is not a pure function of report and category alone. -/
theorem claim_C10_counterexample :
    generate_html_report ⟨"A.xlsx", []⟩ "Cat" "01/01/2025 a las 10:00" ≠
      generate_html_report ⟨"A.xlsx", []⟩ "Cat" "01/01/2025 a las 10:00 " := by
  intro hcontra
  have h := congrArg String.length hcontra
  simp only [generate_html_report, htmlHead, List.foldl_nil, String.length_append] at h
  have h1 : ("01/01/2025 a las 10:00" : String).length = 22 := rfl
  have h2 : ("01/01/2025 a las 10:00 " : String).length = 23 := rfl
  rw [h1, h2] at h
  omega

/-- Claim C10 amended: the renderer is a deterministic function of the
report data, the category name and the formatted current time embedded in
the document header; two invocations agree exactly when all three inputs
agree. -/
theorem claim_C10 (d d2 : Report) (c c2 n n2 : String)
    (h1 : d = d2) (h2 : c = c2) (h3 : n = n2) :
    generate_html_report d c n = generate_html_report d2 c2 n2 := by
  subst h1; subst h2; subst h3
  rfl

/-- Witness for the amended claim C10 at concrete inputs. -/
theorem claim_C10_witness :
    generate_html_report ⟨"A.xlsx", []⟩ "Cat" "01/01/2025 a las 10:00" =
      generate_html_report ⟨"A.xlsx", []⟩ "Cat" "01/01/2025 a las 10:00" :=
  claim_C10 _ _ _ _ _ _ rfl rfl rfl

/-- Counterexample to claim C8 as stated: a persisted file whose base name
does not split into exactly two parts (here `abc.png`) is skipped with no
logged error — the batch continues, but the error list stays empty. -/
theorem claim_C8_counterexample :
    add_images_files ["abc.png", "3_24.png"] (fun _ => true) =
      ⟨[("3_24.png", "Y3")], []⟩ := by decide

/-- Claim C8 amended: a file whose base name does not consist of exactly
two underscore-delimited parts before the extension is skipped silently —
no placement, no logged error — and the remaining files are processed
exactly as if the malformed file were absent. -/
theorem claim_C8 (path : String) (rest : List String) (imgOk : String → Bool)
    (h : ¬(pySplit ((pySplit (pyBasename path) '.').headD "") '_').length = 2) :
    add_images_files (path :: rest) imgOk = add_images_files rest imgOk := by
  unfold add_images_files
  simp only [List.foldl_cons]
  congr 1
  exact if_neg h

/-- Witness for the amended claim C8 at a concrete malformed file name. -/
theorem claim_C8_witness :
    add_images_files ["abc.png", "3_24.png"] (fun _ => true) =
      add_images_files ["3_24.png"] (fun _ => true) :=
  claim_C8 "abc.png" ["3_24.png"] (fun _ => true) (by decide)
